import Mathlib

/-!
Shallow embedding of the astrogaia-jupyter data-access layer
(src/Parameters.py and src/Parameters_JSON.py).

Modelling conventions:
* Python strings are Lean `String`; `str.upper()` is `pyUpper` (ASCII case
  mapping, which agrees with Python on the ASCII catalog names involved).
* Python floats are modelled as `Rat`: the catalog and JSON files hold finite
  decimal literals, and the code only parses, copies and compares them, so no
  rounding behaviour is observable in the contracts under study.
* The file system is an explicit map from path to contents (`none` = missing
  or unreadable file, as with a raised `FileNotFoundError`/`OSError`).
* Fallible Python code (uncaught exceptions) is embedded as `Except`:
  `CatalogError`/`StoreError` name the spec's error taxonomy
  (`CatalogUnavailable`, `MalformedRecord`, `StoreUnavailable`), plus the
  concrete Python exceptions (`ValueError` from `float`/`int`, `NameError`
  from the undefined `object_name` in Parameters_JSON.py).
-/

set_option autoImplicit false

namespace Astrogaia

/-- Python `str.upper()` restricted to ASCII (`Char.toUpper` maps a-z to A-Z
and leaves everything else unchanged, exactly as Python does on ASCII). -/
def pyUpper (s : String) : String := String.mk (s.toList.map Char.toUpper)

/-! ### Numeric token parsing

`np.loadtxt` converts each whitespace-delimited token of a numeric column with
the Python `float` (resp. `int`) constructor; a token that fails to convert
raises a `ValueError` which aborts the whole load.  The parsers below embed
those conversions on finite decimal/exponent literals (the number domain of
the catalog files); a token outside that grammar is a conversion failure. -/

/-- Value of a list of decimal digit characters. -/
def digitsVal (cs : List Char) : Nat :=
  cs.foldl (fun n c => n * 10 + (c.toNat - 48)) 0

/-- Consume an optional leading sign, returning the sign as `1` or `-1`. -/
def takeSign : List Char → Int × List Char
  | '+' :: cs => (1, cs)
  | '-' :: cs => (-1, cs)
  | cs => (1, cs)

/-- The rational `m * 10 ^ e` for an integer mantissa `m` and exponent `e`. -/
def pow10 (m : Int) (e : Int) : Rat :=
  if 0 ≤ e then Rat.divInt (m * (10 : Int) ^ e.toNat) 1
  else Rat.divInt m ((10 : Int) ^ (-e).toNat)

/-- Python `float(token)` on a finite literal: optional sign, digits with an
optional fractional part (at least one digit overall), optional `e`/`E`
exponent with its own optional sign.  `none` models the `ValueError` raised on
any other token. -/
def parseFloat? (s : String) : Option Rat :=
  let (sign, cs) := takeSign s.toList
  let (ip, cs1) := cs.span Char.isDigit
  let (fp, cs2) :=
    match cs1 with
    | '.' :: rest => rest.span Char.isDigit
    | _ => ([], cs1)
  if ip.isEmpty && fp.isEmpty then none
  else
    let mant : Int := sign * (digitsVal (ip ++ fp) : Int)
    match cs2 with
    | [] => some (pow10 mant (-(fp.length : Int)))
    | e :: rest =>
      if e = 'e' ∨ e = 'E' then
        let (esign, cs3) := takeSign rest
        let (eds, cs4) := cs3.span Char.isDigit
        if eds.isEmpty || !cs4.isEmpty then none
        else some (pow10 mant (esign * (digitsVal eds : Int) - (fp.length : Int)))
      else none

/-- Python `int(token)`: optional sign followed by one or more digits and
nothing else (`int("1.5")` raises `ValueError`, hence `none`). -/
def parseInt? (s : String) : Option Int :=
  let (sign, cs) := takeSign s.toList
  let (ds, rest) := cs.span Char.isDigit
  if ds.isEmpty || !rest.isEmpty then none
  else some (sign * (digitsVal ds : Int))

/-! ### CatalogLoader data model (src/Parameters.py lines 20-45) -/

/-- `VasilievData` (frozen dataclass): one catalog row.  Field names and order
follow the source; the 11 float fields are `Rat`, `N_stars` is `Int`. -/
structure VasilievData where
  name : String
  RA : Rat
  DEC : Rat
  distance : Rat
  losv : Rat
  err_losv : Rat
  pm_RA : Rat
  pm_DEC : Rat
  err_pm_RA : Rat
  err_pm_DEC : Rat
  correlation : Rat
  rh : Rat
  N_stars : Int
  deriving Repr, DecidableEq

/-- The zero-valued record built on the `ClusterNotFound` fallback path of
`get_selected_GC` (src/Parameters.py lines 86-88). -/
def emptyVasilievData : VasilievData :=
  { name := "", RA := 0, DEC := 0, distance := 0, losv := 0, err_losv := 0,
    pm_RA := 0, pm_DEC := 0, err_pm_RA := 0, err_pm_DEC := 0,
    correlation := 0, rh := 0, N_stars := 0 }

/-! ### CatalogLoader: get_GC_params (src/Parameters.py lines 48-67)

`np.loadtxt(fname, dtype=data_type, comments='#', unpack=True)` reads the file
line by line: the part of each line from the first `#` on is discarded, lines
that are then blank are skipped, and every remaining line is split on
whitespace and must supply exactly the 13 dtype fields, the name as a string
truncated to 16 characters (`np.unicode_, 16`), columns 1-11 converted with
`float` and the last column with `int`; any violation raises and aborts the
load.  The subsequent `zip` loop rebuilds the rows in file order as
`VasilievData` records, so the whole function is: parse each data line to a
record, in order, failing on the first malformed line. -/

/-- Errors of the catalog load: the spec's `CatalogUnavailable` (missing or
unreadable file), `MalformedRecord` carrying the offending line, and the
Python `TypeError` the unpack `zip` raises when `np.loadtxt`'s default
`ndmin=0` squeeze has collapsed a one-row result to 0-d arrays. -/
inductive CatalogError
  | catalogUnavailable
  | malformedRecord (line : String)
  | typeError
  deriving Repr, DecidableEq

/-- Split a character list into maximal whitespace-free words, accumulating
the current word in reverse in `acc`. -/
def wordsAux : List Char → List Char → List String
  | [], acc => if acc.isEmpty then [] else [String.mk acc.reverse]
  | c :: cs, acc =>
    if c.isWhitespace then
      if acc.isEmpty then wordsAux cs [] else String.mk acc.reverse :: wordsAux cs []
    else wordsAux cs (c :: acc)

/-- The whitespace-separated tokens of a line after comment stripping
(`comments='#'` discards everything from the first `#` on). -/
def lineTokens (line : String) : List String :=
  wordsAux (line.toList.takeWhile (fun c => c ≠ '#')) []

/-- The data lines of a catalog file: lines that still hold tokens after
comment stripping (comment-only and blank lines are skipped). -/
def catalogDataLines (lines : List String) : List String :=
  lines.filter (fun l => !(lineTokens l).isEmpty)

/-- Parse one data line into a `VasilievData` record per the `np.loadtxt`
dtype: exactly 13 tokens, name truncated to 16 characters, 11 float columns,
one final int column.  `none` models the exception `np.loadtxt` raises on a
wrong field count or a failed numeric conversion. -/
def parseRow (line : String) : Option VasilievData :=
  match lineTokens line with
  | [n, c1, c2, c3, c4, c5, c6, c7, c8, c9, c10, c11, c12] => do
    let ra ← parseFloat? c1
    let dec ← parseFloat? c2
    let d ← parseFloat? c3
    let hr ← parseFloat? c4
    let ehr ← parseFloat? c5
    let pmra ← parseFloat? c6
    let pmdec ← parseFloat? c7
    let epmra ← parseFloat? c8
    let epmdec ← parseFloat? c9
    let corr ← parseFloat? c10
    let rh ← parseFloat? c11
    let ns ← parseInt? c12
    pure { name := n.take 16, RA := ra, DEC := dec, distance := d, losv := hr,
           err_losv := ehr, pm_RA := pmra, pm_DEC := pmdec, err_pm_RA := epmra,
           err_pm_DEC := epmdec, correlation := corr, rh := rh, N_stars := ns }
  | _ => none

/-- Parse the data lines in file order, failing on the first malformed line
with `malformedRecord` naming that line (no partial list is produced). -/
def loadRows : List String → Except CatalogError (List VasilievData)
  | [] => Except.ok []
  | l :: ls =>
    match parseRow l with
    | none => Except.error (CatalogError.malformedRecord l)
    | some r => (loadRows ls).map (fun rs => r :: rs)

/-- The unpack step after a successful parse.  `np.loadtxt` is called with
the default `ndmin=0`, which squeezes mono-dimensional axes: a one-row
structured result collapses to a 0-d array, `unpack=True` then yields
thirteen 0-d field arrays, and the `zip` over them raises
`TypeError: iteration over a 0-d array` (numpy 1.x, which the source pins by
using `np.unicode_`).  Zero rows stay a 1-d empty array (the zip loop runs
zero times) and two or more rows stay 1-d, so exactly the one-row case
crashes; parse failures have already been raised before this step. -/
def loadUnpacked (lines : List String) : Except CatalogError (List VasilievData) :=
  match loadRows (catalogDataLines lines) with
  | Except.error e => Except.error e
  | Except.ok rows =>
    if rows.length = 1 then Except.error CatalogError.typeError
    else Except.ok rows

/-- `get_GC_params(fname)`: read the catalog file (a missing file raises, i.e.
`catalogUnavailable`), parse the data lines in file order and rebuild the
`VasilievList` through the squeeze-sensitive unpack step.  The `VasilievList`
wrapper dataclass is embedded as the bare `List VasilievData` it carries in
its single `data` field. -/
def get_GC_params (fs : String → Option (List String)) (fname : String) :
    Except CatalogError (List VasilievData) :=
  match fs fname with
  | none => Except.error CatalogError.catalogUnavailable
  | some lines => loadUnpacked lines

/-- `get_selected_GC(obj_name, data_listed)` (src/Parameters.py lines 69-88):
linear scan with case-insensitive name comparison; the first match is returned
with `True`; otherwise the `ClusterNotFound` handler prints a notice and
returns the zero-valued record with `False`. -/
def get_selected_GC (obj_name : String) : List VasilievData → VasilievData × Bool
  | [] => (emptyVasilievData, false)
  | item :: rest =>
    if pyUpper item.name = pyUpper obj_name then (item, true)
    else get_selected_GC obj_name rest

/-! ### ParameterStore data model (src/Parameters.py lines 89-117) -/

/-- A loosely-typed Python value as deserialized from the JSON document:
the numeric fields of a stored record may arrive as a string, a float or an
int before the lookup re-types them with `float(...)` / `int(...)`. -/
inductive PVal
  | pstr (s : String)
  | pfloat (q : Rat)
  | pint (n : Int)
  deriving Repr, DecidableEq

/-- `ParametersGC` dataclass: name plus 12 numeric fields (9 floats, 3 int
step counts), all defaulting to zero / empty. -/
structure ParametersGC where
  name : String := ""
  PM_plot_x_axis_min : Rat := 0
  PM_plot_x_axis_max : Rat := 0
  PM_plot_y_axis_min : Rat := 0
  PM_plot_y_axis_max : Rat := 0
  width_minim : Rat := 0
  width_maxim : Rat := 0
  width_nstep : Int := 0
  height_minim : Rat := 0
  height_maxim : Rat := 0
  height_nstep : Int := 0
  incl_minim : Rat := 0
  incl_maxim : Rat := 0
  incl_nstep : Int := 0
  deriving Repr, DecidableEq

/-- `ParametersGC()` with every default (the miss-path return value). -/
def emptyParametersGC : ParametersGC := {}

/-- One record of the deserialized JSON document (`ParametersList.from_dict`
output) before the lookup's defensive re-typing: the name is a string, the
numeric fields are still loosely typed `PVal`s. -/
structure RawGC where
  name : String
  PM_plot_x_axis_min : PVal
  PM_plot_x_axis_max : PVal
  PM_plot_y_axis_min : PVal
  PM_plot_y_axis_max : PVal
  width_minim : PVal
  width_maxim : PVal
  width_nstep : PVal
  height_minim : PVal
  height_maxim : PVal
  height_nstep : PVal
  incl_minim : PVal
  incl_maxim : PVal
  incl_nstep : PVal
  deriving Repr, DecidableEq

/-- Errors of the parameter-store path: the spec's `StoreUnavailable`
(missing or unreadable JSON file), Python's `ValueError` from a failed
`float(...)`/`int(...)` re-typing, and Python's `NameError` from evaluating
the undefined `object_name` in the Parameters_JSON.py variant. -/
inductive StoreError
  | storeUnavailable
  | valueError
  | nameError
  deriving Repr, DecidableEq

/-- Python `float(v)` on a loosely-typed value: floats pass through, ints are
widened, strings are parsed as float literals (`float("1.5") = 1.5`);
anything else raises `ValueError` (`none`). -/
def pyFloat : PVal → Option Rat
  | PVal.pstr s => parseFloat? s
  | PVal.pfloat q => some q
  | PVal.pint n => some n

/-- Truncation toward zero, the rounding of Python `int(float)`. -/
def ratTrunc (q : Rat) : Int := q.num.tdiv q.den

/-- Python `int(v)`: ints pass through, floats truncate toward zero, strings
must be integer literals (`int("1.5")` raises `ValueError`, hence `none`). -/
def pyInt : PVal → Option Int
  | PVal.pstr s => parseInt? s
  | PVal.pfloat q => some (ratTrunc q)
  | PVal.pint n => some n

/-- The `ParametersGC(...)` constructor call of src/Parameters.py lines
141-154: a copy of the matched item with every float field re-typed through
`float(...)` and every step count through `int(...)`; `none` models the
`ValueError` a failed conversion raises. -/
def coerceItem (item : RawGC) : Option ParametersGC := do
  let x1 ← pyFloat item.PM_plot_x_axis_min
  let x2 ← pyFloat item.PM_plot_x_axis_max
  let y1 ← pyFloat item.PM_plot_y_axis_min
  let y2 ← pyFloat item.PM_plot_y_axis_max
  let wmin ← pyFloat item.width_minim
  let wmax ← pyFloat item.width_maxim
  let wn ← pyInt item.width_nstep
  let hmin ← pyFloat item.height_minim
  let hmax ← pyFloat item.height_maxim
  let hn ← pyInt item.height_nstep
  let imin ← pyFloat item.incl_minim
  let imax ← pyFloat item.incl_maxim
  let istep ← pyInt item.incl_nstep
  pure { name := item.name, PM_plot_x_axis_min := x1, PM_plot_x_axis_max := x2,
         PM_plot_y_axis_min := y1, PM_plot_y_axis_max := y2,
         width_minim := wmin, width_maxim := wmax, width_nstep := wn,
         height_minim := hmin, height_maxim := hmax, height_nstep := hn,
         incl_minim := imin, incl_maxim := imax, incl_nstep := istep }

/-- The scan loop of `isInJSONParametersFile` (src/Parameters.py lines
139-157): first case-insensitive name match wins and is returned re-typed with
`True`; falling off the loop returns `ParametersGC()` with `False`. -/
def scanParameters (object_name : String) :
    List RawGC → Except StoreError (ParametersGC × Bool)
  | [] => Except.ok (emptyParametersGC, false)
  | item :: rest =>
    if pyUpper item.name = pyUpper object_name then
      match coerceItem item with
      | some p => Except.ok (p, true)
      | none => Except.error StoreError.valueError
    else scanParameters object_name rest

/-- `isInJSONParametersFile(filename_json, object_name)` (src/Parameters.py
lines 120-157): open and deserialize the JSON file (a missing file raises,
i.e. `storeUnavailable`; `json.loads` + `ParametersList.from_dict` of a
present well-shaped file is the document the file-system map yields), then
scan for the object name. -/
def isInJSONParametersFile (fs : String → Option (List RawGC))
    (filename_json : String) (object_name : String) :
    Except StoreError (ParametersGC × Bool) :=
  match fs filename_json with
  | none => Except.error StoreError.storeUnavailable
  | some doc => scanParameters object_name doc

/-- The scan loop of the src/Parameters_JSON.py variant (lines 55-73).  That
function takes no `object_name` parameter, yet its loop body evaluates
`object_name`; the name resolves through the ambient global namespace, which
the embedding passes explicitly as `globals_object_name` (the module itself
defines no such global, i.e. `none`, and evaluating an unbound name raises
`NameError`). -/
def scanParametersJSON (globals_object_name : Option String) :
    List RawGC → Except StoreError (ParametersGC × Bool)
  | [] => Except.ok (emptyParametersGC, false)
  | item :: rest =>
    match globals_object_name with
    | none => Except.error StoreError.nameError
    | some g =>
      if pyUpper item.name = pyUpper g then
        match coerceItem item with
        | some p => Except.ok (p, true)
        | none => Except.error StoreError.valueError
      else scanParametersJSON globals_object_name rest

/-- `isInJSONParametersFile(filename_json)` of src/Parameters_JSON.py
(lines 36-73): identical to the Parameters.py variant except that the queried
name is the free variable `object_name` resolved from the globals. -/
def isInJSONParametersFileJSON (globals_object_name : Option String)
    (fs : String → Option (List RawGC)) (filename_json : String) :
    Except StoreError (ParametersGC × Bool) :=
  match fs filename_json with
  | none => Except.error StoreError.storeUnavailable
  | some doc => scanParametersJSON globals_object_name doc

/-- Decidable check used in theorem statements: does a catalog line parse to a
row whose name matches `q` case-insensitively? -/
def rowMatches (q line : String) : Bool :=
  match parseRow line with
  | some row => pyUpper row.name = pyUpper q
  | none => false

/-! ### Concrete example data (used by the witness theorems) -/

/-- A small well-formed catalog file in the Vasiliev (2019) format. -/
def exLines : List String :=
  ["# Vasiliev (2019) sample",
   "",
   "NGC104 6.02 -72.08 4.5 -17.45 0.2 5.25 -2.53 0.08 0.08 0.0 5.0 2704 # note",
   "NGC288 13.19 -26.59 8.9 -44.45 0.2 4.22 -5.65 0.09 0.08 -0.05 2.9 351"]

/-- A file system holding only the example catalog. -/
def exFS : String → Option (List String) :=
  fun s => if s = "catalog.txt" then some exLines else none

/-- The parsed first data row of `exLines`. -/
def row104 : VasilievData :=
  { name := "NGC104", RA := Rat.divInt 602 100, DEC := Rat.divInt (-7208) 100,
    distance := Rat.divInt 45 10, losv := Rat.divInt (-1745) 100,
    err_losv := Rat.divInt 2 10, pm_RA := Rat.divInt 525 100,
    pm_DEC := Rat.divInt (-253) 100, err_pm_RA := Rat.divInt 8 100,
    err_pm_DEC := Rat.divInt 8 100, correlation := 0, rh := 5, N_stars := 2704 }

/-- The parsed second data row of `exLines`. -/
def row288 : VasilievData :=
  { name := "NGC288", RA := Rat.divInt 1319 100, DEC := Rat.divInt (-2659) 100,
    distance := Rat.divInt 89 10, losv := Rat.divInt (-4445) 100,
    err_losv := Rat.divInt 2 10, pm_RA := Rat.divInt 422 100,
    pm_DEC := Rat.divInt (-565) 100, err_pm_RA := Rat.divInt 9 100,
    err_pm_DEC := Rat.divInt 8 100, correlation := Rat.divInt (-5) 100,
    rh := Rat.divInt 29 10, N_stars := 351 }

/-- The example catalog as loaded: file order, one record per data line. -/
def exData : List VasilievData := [row104, row288]

/-- A catalog file whose two data rows share the name NGC104 up to case. -/
def exDupLines : List String :=
  ["NGC104 6.02 -72.08 4.5 -17.45 0.2 5.25 -2.53 0.08 0.08 0.0 5.0 2704",
   "ngc104 1.0 2.0 3.0 4.0 5.0 6.0 7.0 8.0 9.0 0.1 1.1 42"]

/-- A file system holding only the duplicate-name catalog. -/
def exDupFS : String → Option (List String) :=
  fun s => if s = "dup.txt" then some exDupLines else none

/-- The parsed second data row of `exDupLines`. -/
def rowDup : VasilievData :=
  { name := "ngc104", RA := 1, DEC := 2, distance := 3, losv := 4, err_losv := 5,
    pm_RA := 6, pm_DEC := 7, err_pm_RA := 8, err_pm_DEC := 9,
    correlation := Rat.divInt 1 10, rh := Rat.divInt 11 10, N_stars := 42 }

/-- The duplicate-name catalog as loaded. -/
def exDupData : List VasilievData := [row104, rowDup]

/-- A catalog file with only comments and blank lines. -/
def exEmptyLines : List String := ["# header", "", "   ", "# only comments here"]

/-- A file system holding only the data-free catalog. -/
def exEmptyFS : String → Option (List String) :=
  fun s => if s = "empty.txt" then some exEmptyLines else none

/-- A valid catalog file with exactly one data row. -/
def ex1Lines : List String :=
  ["# single cluster",
   "NGC104 6.02 -72.08 4.5 -17.45 0.2 5.25 -2.53 0.08 0.08 0.0 5.0 2704"]

/-- A file system holding only the one-row catalog. -/
def ex1FS : String → Option (List String) :=
  fun s => if s = "one.txt" then some ex1Lines else none

/-- A catalog file whose second data line has too few columns. -/
def exBadLines : List String :=
  ["NGC104 6.02 -72.08 4.5 -17.45 0.2 5.25 -2.53 0.08 0.08 0.0 5.0 2704",
   "NGC288 13.19 -26.59"]

/-- A file system holding only the malformed catalog. -/
def exBadFS : String → Option (List String) :=
  fun s => if s = "bad.txt" then some exBadLines else none

/-- A file system with no files at all. -/
def noneFS : String → Option (List String) := fun _ => none

/-- A parameter-store file system with no files at all. -/
def noneStoreFS : String → Option (List RawGC) := fun _ => none

/-- A deserialized JSON record with plain integer fields. -/
def item104raw : RawGC :=
  { name := "NGC104", PM_plot_x_axis_min := PVal.pint (-4),
    PM_plot_x_axis_max := PVal.pint 4, PM_plot_y_axis_min := PVal.pint (-4),
    PM_plot_y_axis_max := PVal.pint 4, width_minim := PVal.pint 1,
    width_maxim := PVal.pint 3, width_nstep := PVal.pint 5,
    height_minim := PVal.pint 1, height_maxim := PVal.pint 3,
    height_nstep := PVal.pint 5, incl_minim := PVal.pint 0,
    incl_maxim := PVal.pint 90, incl_nstep := PVal.pint 5 }

/-- `item104raw` after the lookup's re-typing: the ints widen to floats in
the float fields and pass through in the step counts. -/
def coerced104 : ParametersGC :=
  { name := "NGC104", PM_plot_x_axis_min := Rat.divInt (-4) 1,
    PM_plot_x_axis_max := 4, PM_plot_y_axis_min := Rat.divInt (-4) 1,
    PM_plot_y_axis_max := 4, width_minim := 1, width_maxim := 3,
    width_nstep := 5, height_minim := 1, height_maxim := 3,
    height_nstep := 5, incl_minim := 0, incl_maxim := 90, incl_nstep := 5 }

/-- A deserialized JSON record with loosely-typed numeric fields: strings
holding number literals, floats and ints mixed. -/
def item5139 : RawGC :=
  { name := "NGC5139", PM_plot_x_axis_min := PVal.pstr "1.5",
    PM_plot_x_axis_max := PVal.pfloat (Rat.divInt 9 2),
    PM_plot_y_axis_min := PVal.pint (-3),
    PM_plot_y_axis_max := PVal.pfloat (Rat.divInt 7 2),
    width_minim := PVal.pstr "0.5", width_maxim := PVal.pfloat 2,
    width_nstep := PVal.pint 10, height_minim := PVal.pfloat 0,
    height_maxim := PVal.pstr "2.5", height_nstep := PVal.pstr "7",
    incl_minim := PVal.pint 0, incl_maxim := PVal.pfloat 90,
    incl_nstep := PVal.pfloat (Rat.divInt 29 10) }

/-- `item5139` after the lookup's `float(...)`/`int(...)` re-typing: the
string "1.5" has become the number 3/2, the float 2.9 step count truncated
to the int 2. -/
def coerced5139 : ParametersGC :=
  { name := "NGC5139", PM_plot_x_axis_min := Rat.divInt 3 2,
    PM_plot_x_axis_max := Rat.divInt 9 2, PM_plot_y_axis_min := Rat.divInt (-3) 1,
    PM_plot_y_axis_max := Rat.divInt 7 2, width_minim := Rat.divInt 1 2,
    width_maxim := 2, width_nstep := 10, height_minim := 0,
    height_maxim := Rat.divInt 5 2, height_nstep := 7, incl_minim := 0,
    incl_maxim := 90, incl_nstep := 2 }

/-- The example parameter-store document. -/
def exRawDoc : List RawGC := [item104raw, item5139]

/-- A parameter-store file system holding only the example document. -/
def exStoreFS : String → Option (List RawGC) :=
  fun s => if s = "params.json" then some exRawDoc else none

/-! ### Equation and scan lemmas -/

theorem get_selected_GC_nil (q : String) :
    get_selected_GC q [] = (emptyVasilievData, false) := rfl

theorem get_selected_GC_cons (q : String) (d : VasilievData) (ds : List VasilievData) :
    get_selected_GC q (d :: ds) =
      if pyUpper d.name = pyUpper q then (d, true) else get_selected_GC q ds := rfl

theorem loadRows_cons (l : String) (ls : List String) :
    loadRows (l :: ls) =
      match parseRow l with
      | none => Except.error (CatalogError.malformedRecord l)
      | some r => (loadRows ls).map (fun rs => r :: rs) := rfl

theorem scanParameters_cons (q : String) (item : RawGC) (rest : List RawGC) :
    scanParameters q (item :: rest) =
      if pyUpper item.name = pyUpper q then
        match coerceItem item with
        | some p => Except.ok (p, true)
        | none => Except.error StoreError.valueError
      else scanParameters q rest := rfl

/-- The scan of `get_selected_GC` misses when no record's name matches. -/
theorem get_selected_GC_miss (q : String) (data : List VasilievData)
    (h : ∀ r ∈ data, pyUpper r.name ≠ pyUpper q) :
    get_selected_GC q data = (emptyVasilievData, false) := by
  induction data with
  | nil => rfl
  | cons d ds ih =>
    rw [get_selected_GC_cons, if_neg (h d (List.mem_cons_self d ds))]
    exact ih (fun r hr => h r (List.mem_cons_of_mem d hr))

/-- The scan of `get_selected_GC` returns the first matching record. -/
theorem get_selected_GC_hit (q : String) (data : List VasilievData) (i : Nat)
    (hi : i < data.length)
    (hmatch : pyUpper (data.get ⟨i, hi⟩).name = pyUpper q)
    (hfirst : ∀ j (hj : j < i),
      pyUpper (data.get ⟨j, Nat.lt_trans hj hi⟩).name ≠ pyUpper q) :
    get_selected_GC q data = (data.get ⟨i, hi⟩, true) := by
  induction data generalizing i with
  | nil => exact absurd hi (Nat.not_lt_zero i)
  | cons d ds ih =>
    cases i with
    | zero =>
      have hm : pyUpper d.name = pyUpper q := hmatch
      rw [get_selected_GC_cons, if_pos hm]
      rfl
    | succ n =>
      have hd : pyUpper d.name ≠ pyUpper q := by simpa using hfirst 0 (Nat.succ_pos n)
      rw [get_selected_GC_cons, if_neg hd]
      have hrec := ih n (Nat.lt_of_succ_lt_succ hi) (by simpa using hmatch)
        (fun j hj => by simpa using hfirst (j + 1) (Nat.succ_lt_succ hj))
      simpa using hrec

/-- A successful `get_selected_GC` returns a member of the list whose name
matches the query case-insensitively. -/
theorem get_selected_GC_found (q : String) (data : List VasilievData)
    (r : VasilievData) (h : get_selected_GC q data = (r, true)) :
    r ∈ data ∧ pyUpper r.name = pyUpper q := by
  induction data with
  | nil =>
    rw [get_selected_GC_nil] at h
    exact absurd (congrArg Prod.snd h) (by simp)
  | cons d ds ih =>
    rw [get_selected_GC_cons] at h
    by_cases hd : pyUpper d.name = pyUpper q
    · rw [if_pos hd] at h
      have : d = r := congrArg Prod.fst h
      subst this
      exact ⟨List.mem_cons_self d ds, hd⟩
    · rw [if_neg hd] at h
      obtain ⟨hmem, hname⟩ := ih h
      exact ⟨List.mem_cons_of_mem d hmem, hname⟩

/-- `get_selected_GC` depends on the query only through its uppercasing. -/
theorem get_selected_GC_congr (q1 q2 : String) (data : List VasilievData)
    (h : pyUpper q1 = pyUpper q2) :
    get_selected_GC q1 data = get_selected_GC q2 data := by
  induction data with
  | nil => rfl
  | cons d ds ih => rw [get_selected_GC_cons, get_selected_GC_cons, h, ih]

/-- A successful `loadRows` yields one record per data line. -/
theorem loadRows_ok_length (ls : List String) (data : List VasilievData)
    (h : loadRows ls = Except.ok data) : data.length = ls.length := by
  induction ls generalizing data with
  | nil =>
    have : ([] : List VasilievData) = data := Except.ok.inj h
    rw [← this]
    rfl
  | cons l ls ih =>
    rw [loadRows_cons] at h
    cases hp : parseRow l with
    | none => rw [hp] at h; exact absurd h (by simp)
    | some r =>
      rw [hp] at h
      cases hl : loadRows ls with
      | error e => rw [hl] at h; exact absurd h (by simp [Except.map])
      | ok rs =>
        rw [hl] at h
        have : r :: rs = data := Except.ok.inj h
        rw [← this]
        simp [ih rs hl]

/-- A successful `loadRows` parses the i-th data line to the i-th record. -/
theorem loadRows_ok_get (ls : List String) (data : List VasilievData)
    (h : loadRows ls = Except.ok data) (i : Nat) (h1 : i < ls.length)
    (h2 : i < data.length) :
    parseRow (ls.get ⟨i, h1⟩) = some (data.get ⟨i, h2⟩) := by
  induction ls generalizing data i with
  | nil => exact absurd h1 (Nat.not_lt_zero i)
  | cons l ls ih =>
    rw [loadRows_cons] at h
    cases hp : parseRow l with
    | none => rw [hp] at h; exact absurd h (by simp)
    | some r =>
      rw [hp] at h
      cases hl : loadRows ls with
      | error e => rw [hl] at h; exact absurd h (by simp [Except.map])
      | ok rs =>
        rw [hl] at h
        have hdata : r :: rs = data := Except.ok.inj h
        subst hdata
        cases i with
        | zero => simpa using hp
        | succ n =>
          have hrec := ih rs hl n (Nat.lt_of_succ_lt_succ h1) (Nat.lt_of_succ_lt_succ h2)
          simpa using hrec

/-- If some data line is malformed, `loadRows` fails with `malformedRecord`
naming a malformed line (and never returns a partial list). -/
theorem loadRows_error_of_mem (ls : List String) (l : String)
    (hmem : l ∈ ls) (hbad : parseRow l = none) :
    ∃ lb, lb ∈ ls ∧ parseRow lb = none ∧
      loadRows ls = Except.error (CatalogError.malformedRecord lb) := by
  induction ls with
  | nil => cases hmem
  | cons a as ih =>
    cases hp : parseRow a with
    | none =>
      exact ⟨a, List.mem_cons_self a as, hp, by rw [loadRows_cons, hp]⟩
    | some r =>
      have hmem2 : l ∈ as := by
        cases List.mem_cons.mp hmem with
        | inl he => rw [he, hp] at hbad; cases hbad
        | inr h2 => exact h2
      obtain ⟨lb, hlb, hlbnone, herr⟩ := ih hmem2
      refine ⟨lb, List.mem_cons_of_mem a hlb, hlbnone, ?_⟩
      rw [loadRows_cons, hp, herr]
      rfl

/-- A successful load means the parse succeeded and the one-row squeeze
`TypeError` was not hit: the row count is not one. -/
theorem loadUnpacked_ok (lines : List String) (data : List VasilievData)
    (h : loadUnpacked lines = Except.ok data) :
    loadRows (catalogDataLines lines) = Except.ok data ∧ data.length ≠ 1 := by
  unfold loadUnpacked at h
  cases hl : loadRows (catalogDataLines lines) with
  | error e => rw [hl] at h; exact absurd h (by simp)
  | ok rows =>
    rw [hl] at h
    have h2 : (if rows.length = 1 then Except.error CatalogError.typeError
        else Except.ok rows) = Except.ok data := h
    by_cases h1 : rows.length = 1
    · rw [if_pos h1] at h2
      exact absurd h2 (by simp)
    · rw [if_neg h1] at h2
      have hrd : rows = data := Except.ok.inj h2
      subst hrd
      exact ⟨rfl, h1⟩

/-- A re-typed copy keeps the stored name verbatim. -/
theorem coerceItem_name (item : RawGC) (p : ParametersGC)
    (h : coerceItem item = some p) : p.name = item.name := by
  unfold coerceItem at h
  simp only [← Option.bind_eq_bind, Option.pure_def] at h
  obtain ⟨x1, hx1, h⟩ := Option.bind_eq_some.mp h
  obtain ⟨x2, hx2, h⟩ := Option.bind_eq_some.mp h
  obtain ⟨y1, hy1, h⟩ := Option.bind_eq_some.mp h
  obtain ⟨y2, hy2, h⟩ := Option.bind_eq_some.mp h
  obtain ⟨w1, hw1, h⟩ := Option.bind_eq_some.mp h
  obtain ⟨w2, hw2, h⟩ := Option.bind_eq_some.mp h
  obtain ⟨w3, hw3, h⟩ := Option.bind_eq_some.mp h
  obtain ⟨k1, hk1, h⟩ := Option.bind_eq_some.mp h
  obtain ⟨k2, hk2, h⟩ := Option.bind_eq_some.mp h
  obtain ⟨k3, hk3, h⟩ := Option.bind_eq_some.mp h
  obtain ⟨i1, hi1, h⟩ := Option.bind_eq_some.mp h
  obtain ⟨i2, hi2, h⟩ := Option.bind_eq_some.mp h
  obtain ⟨i3, hi3, h⟩ := Option.bind_eq_some.mp h
  rw [← Option.some.inj h]

/-- The store scan misses when no stored name matches, returning the default
record and `false` with no error. -/
theorem scanParameters_miss (q : String) (doc : List RawGC)
    (h : ∀ item ∈ doc, pyUpper item.name ≠ pyUpper q) :
    scanParameters q doc = Except.ok (emptyParametersGC, false) := by
  induction doc with
  | nil => rfl
  | cons item rest ih =>
    rw [scanParameters_cons, if_neg (h item (List.mem_cons_self item rest))]
    exact ih (fun it hit => h it (List.mem_cons_of_mem item hit))

/-- The store scan returns the re-typed copy of the first matching record. -/
theorem scanParameters_hit (q : String) (doc : List RawGC) (i : Nat)
    (hi : i < doc.length) (p : ParametersGC)
    (hmatch : pyUpper (doc.get ⟨i, hi⟩).name = pyUpper q)
    (hco : coerceItem (doc.get ⟨i, hi⟩) = some p)
    (hfirst : ∀ j (hj : j < i),
      pyUpper (doc.get ⟨j, Nat.lt_trans hj hi⟩).name ≠ pyUpper q) :
    scanParameters q doc = Except.ok (p, true) := by
  induction doc generalizing i with
  | nil => exact absurd hi (Nat.not_lt_zero i)
  | cons item rest ih =>
    cases i with
    | zero =>
      have hm : pyUpper item.name = pyUpper q := hmatch
      have hc : coerceItem item = some p := hco
      rw [scanParameters_cons, if_pos hm, hc]
    | succ n =>
      have hd : pyUpper item.name ≠ pyUpper q := by simpa using hfirst 0 (Nat.succ_pos n)
      rw [scanParameters_cons, if_neg hd]
      exact ih n (Nat.lt_of_succ_lt_succ hi) (by simpa using hmatch)
        (by simpa using hco)
        (fun j hj => by simpa using hfirst (j + 1) (Nat.succ_lt_succ hj))

/-- A successful store hit carries the name of a stored record that matched
the query case-insensitively. -/
theorem scanParameters_found (q : String) (doc : List RawGC) (p : ParametersGC)
    (h : scanParameters q doc = Except.ok (p, true)) :
    ∃ item, item ∈ doc ∧ p.name = item.name ∧ pyUpper item.name = pyUpper q := by
  induction doc with
  | nil =>
    have := Except.ok.inj h
    exact absurd (congrArg Prod.snd this) (by simp)
  | cons item rest ih =>
    rw [scanParameters_cons] at h
    by_cases hd : pyUpper item.name = pyUpper q
    · rw [if_pos hd] at h
      cases hc : coerceItem item with
      | none => rw [hc] at h; exact absurd h (by simp)
      | some p2 =>
        rw [hc] at h
        have hpp : p2 = p := congrArg Prod.fst (Except.ok.inj h)
        refine ⟨item, List.mem_cons_self item rest, ?_, hd⟩
        rw [← hpp]
        exact coerceItem_name item p2 hc
    · rw [if_neg hd] at h
      obtain ⟨it, hmem, hname, hup⟩ := ih h
      exact ⟨it, List.mem_cons_of_mem item hmem, hname, hup⟩

/-- The store scan depends on the query only through its uppercasing. -/
theorem scanParameters_congr (q1 q2 : String) (doc : List RawGC)
    (h : pyUpper q1 = pyUpper q2) :
    scanParameters q1 doc = scanParameters q2 doc := by
  induction doc with
  | nil => rfl
  | cons item rest ih => rw [scanParameters_cons, scanParameters_cons, h, ih]

/-- Loading a catalog file and querying the name of its i-th data row (first
occurrence of that name) returns that row's record and `true`. -/
theorem load_find_aux (fs : String → Option (List String)) (fname : String)
    (lines : List String) (data : List VasilievData) (q : String) (i : Nat)
    (hfs : fs fname = some lines)
    (hload : get_GC_params fs fname = Except.ok data)
    (hi : i < (catalogDataLines lines).length)
    (row : VasilievData)
    (hrow : parseRow ((catalogDataLines lines).get ⟨i, hi⟩) = some row)
    (hmatch : pyUpper row.name = pyUpper q)
    (hfirst : ∀ j (hj : j < i),
      rowMatches q ((catalogDataLines lines).get ⟨j, Nat.lt_trans hj hi⟩) = false) :
    get_selected_GC q data = (row, true) := by
  have hload2 : loadRows (catalogDataLines lines) = Except.ok data := by
    unfold get_GC_params at hload
    rw [hfs] at hload
    have hlu : loadUnpacked lines = Except.ok data := hload
    exact (loadUnpacked_ok lines data hlu).1
  have hlen := loadRows_ok_length _ _ hload2
  have hi2 : i < data.length := by rw [hlen]; exact hi
  have hgeti := loadRows_ok_get _ _ hload2 i hi hi2
  have hdi : data.get ⟨i, hi2⟩ = row := by
    rw [hrow] at hgeti
    exact (Option.some.inj hgeti).symm
  have hfirst2 : ∀ j (hj : j < i),
      pyUpper (data.get ⟨j, Nat.lt_trans hj hi2⟩).name ≠ pyUpper q := by
    intro j hj
    have hj2 : j < (catalogDataLines lines).length := Nat.lt_trans hj hi
    have hg := loadRows_ok_get _ _ hload2 j hj2 (Nat.lt_trans hj hi2)
    have hm := hfirst j hj
    unfold rowMatches at hm
    rw [hg] at hm
    simpa using hm
  have hhit := get_selected_GC_hit q data i hi2 (by rw [hdi]; exact hmatch) hfirst2
  rw [hdi] at hhit
  exact hhit

/-- C1: the claim fails on the code at valid one-row catalogs: the single
data line below is well-formed and holds the queried name NGC104, yet the
load crashes with the unpack `TypeError` (np.loadtxt's default `ndmin=0`
squeeze turns the one-row structured array into 0-d field arrays and the
`zip` over them raises) instead of returning the one-record list, so the
lookup is never reached. -/
theorem single_row_load_crashes :
    (∀ l ∈ catalogDataLines ex1Lines, rowMatches "NGC104" l = true) ∧
    (catalogDataLines ex1Lines).length = 1 ∧
    get_GC_params ex1FS "one.txt" = Except.error CatalogError.typeError :=
  ⟨by decide, by decide, rfl⟩

/-- C2: a query matching no record returns `found = false` and the zero-valued
record, for the catalog lookup and the parameter-store lookup alike; the store
lookup returns normally (no error escapes), the miss is only in the boolean. -/
theorem find_miss_returns_zero_record (q : String) (data : List VasilievData)
    (q2 : String) (doc : List RawGC)
    (h1 : ∀ r ∈ data, pyUpper r.name ≠ pyUpper q)
    (h2 : ∀ item ∈ doc, pyUpper item.name ≠ pyUpper q2) :
    get_selected_GC q data = (emptyVasilievData, false) ∧
    scanParameters q2 doc = Except.ok (emptyParametersGC, false) :=
  ⟨get_selected_GC_miss q data h1, scanParameters_miss q2 doc h2⟩

/-- C2 witness: "NGC999" is in neither the example catalog nor the example
parameter document. -/
theorem find_miss_returns_zero_record_witness :
    get_selected_GC "NGC999" exData = (emptyVasilievData, false) ∧
    scanParameters "NGC999" exRawDoc = Except.ok (emptyParametersGC, false) :=
  find_miss_returns_zero_record "NGC999" exData "NGC999" exRawDoc
    (by decide) (by decide)

/-- C3: two queries equal up to letter case give identical results, for the
catalog lookup and the parameter-store lookup alike. -/
theorem find_case_insensitive (q1 q2 : String) (data : List VasilievData)
    (doc : List RawGC) (h : pyUpper q1 = pyUpper q2) :
    get_selected_GC q1 data = get_selected_GC q2 data ∧
    scanParameters q1 doc = scanParameters q2 doc :=
  ⟨get_selected_GC_congr q1 q2 data h, scanParameters_congr q1 q2 doc h⟩

/-- C3 witness: "ngc104" and "NGC104" agree on the example catalog and the
example parameter document. -/
theorem find_case_insensitive_witness :
    get_selected_GC "ngc104" exData = get_selected_GC "NGC104" exData ∧
    scanParameters "ngc104" exRawDoc = scanParameters "NGC104" exRawDoc :=
  find_case_insensitive "ngc104" "NGC104" exData exRawDoc (by decide)

/-- C4: in a catalog whose loaded records contain a duplicate name
(case-insensitively), the lookup returns the record of the first matching data
line in file order. -/
theorem find_returns_first_of_duplicates (fs : String → Option (List String))
    (fname : String) (lines : List String) (data : List VasilievData)
    (q : String) (i : Nat)
    (hfs : fs fname = some lines)
    (hload : get_GC_params fs fname = Except.ok data)
    (hi : i < (catalogDataLines lines).length)
    (row : VasilievData)
    (hrow : parseRow ((catalogDataLines lines).get ⟨i, hi⟩) = some row)
    (hmatch : pyUpper row.name = pyUpper q)
    (hfirst : ∀ j (hj : j < i),
      rowMatches q ((catalogDataLines lines).get ⟨j, Nat.lt_trans hj hi⟩) = false)
    (hdup : ∃ k, ∃ hk : k < (catalogDataLines lines).length, i < k ∧
      rowMatches q ((catalogDataLines lines).get ⟨k, hk⟩) = true) :
    get_selected_GC q data = (row, true) :=
  let _ := hdup
  load_find_aux fs fname lines data q i hfs hload hi row hrow hmatch hfirst

/-- C4 witness: the duplicate-name catalog holds NGC104 twice (second time in
lower case); querying "NGC104" returns the first row in file order. -/
theorem find_returns_first_of_duplicates_witness :
    get_selected_GC "NGC104" exDupData = (row104, true) :=
  find_returns_first_of_duplicates exDupFS "dup.txt" exDupLines exDupData
    "NGC104" 0 rfl rfl (by decide) row104 (by decide) (by decide) (by decide)
    ⟨1, by decide, by decide, by decide⟩

/-- C5: on a hit, the parameter-store lookup returns a copy of the first
matching stored record with every numeric field coerced to its declared type:
the nine float fields through `float(...)`, the three step counts through
`int(...)`, and the name copied verbatim. -/
theorem store_hit_returns_coerced_copy (q : String) (doc : List RawGC) (i : Nat)
    (hi : i < doc.length)
    (x1 x2 y1 y2 wmin wmax kmin kmax imin imax : Rat) (wn kn istep : Int)
    (hx1 : pyFloat (doc.get ⟨i, hi⟩).PM_plot_x_axis_min = some x1)
    (hx2 : pyFloat (doc.get ⟨i, hi⟩).PM_plot_x_axis_max = some x2)
    (hy1 : pyFloat (doc.get ⟨i, hi⟩).PM_plot_y_axis_min = some y1)
    (hy2 : pyFloat (doc.get ⟨i, hi⟩).PM_plot_y_axis_max = some y2)
    (hw1 : pyFloat (doc.get ⟨i, hi⟩).width_minim = some wmin)
    (hw2 : pyFloat (doc.get ⟨i, hi⟩).width_maxim = some wmax)
    (hw3 : pyInt (doc.get ⟨i, hi⟩).width_nstep = some wn)
    (hk1 : pyFloat (doc.get ⟨i, hi⟩).height_minim = some kmin)
    (hk2 : pyFloat (doc.get ⟨i, hi⟩).height_maxim = some kmax)
    (hk3 : pyInt (doc.get ⟨i, hi⟩).height_nstep = some kn)
    (hm1 : pyFloat (doc.get ⟨i, hi⟩).incl_minim = some imin)
    (hm2 : pyFloat (doc.get ⟨i, hi⟩).incl_maxim = some imax)
    (hm3 : pyInt (doc.get ⟨i, hi⟩).incl_nstep = some istep)
    (hmatch : pyUpper (doc.get ⟨i, hi⟩).name = pyUpper q)
    (hfirst : ∀ j (hj : j < i),
      pyUpper (doc.get ⟨j, Nat.lt_trans hj hi⟩).name ≠ pyUpper q) :
    scanParameters q doc = Except.ok
      ({ name := (doc.get ⟨i, hi⟩).name, PM_plot_x_axis_min := x1,
         PM_plot_x_axis_max := x2, PM_plot_y_axis_min := y1,
         PM_plot_y_axis_max := y2, width_minim := wmin, width_maxim := wmax,
         width_nstep := wn, height_minim := kmin, height_maxim := kmax,
         height_nstep := kn, incl_minim := imin, incl_maxim := imax,
         incl_nstep := istep }, true) := by
  apply scanParameters_hit q doc i hi _ hmatch _ hfirst
  unfold coerceItem
  rw [hx1, hx2, hy1, hy2, hw1, hw2, hw3, hk1, hk2, hk3, hm1, hm2, hm3]
  rfl

/-- C5 witness: the stored NGC5139 record holds the JSON string "1.5" in the
float field `PM_plot_x_axis_min` and the float 2.9 in the int field
`incl_nstep`; the lookup returns them as the number 3/2 and the int 2. -/
theorem store_hit_returns_coerced_copy_witness :
    scanParameters "ngc5139" exRawDoc = Except.ok (coerced5139, true) :=
  store_hit_returns_coerced_copy "ngc5139" exRawDoc 1 (by decide)
    (Rat.divInt 3 2) (Rat.divInt 9 2) (Rat.divInt (-3) 1) (Rat.divInt 7 2)
    (Rat.divInt 1 2) 2 0 (Rat.divInt 5 2) 0 90 10 7 2
    (by decide) (by decide) (by decide) (by decide) (by decide) (by decide)
    (by decide) (by decide) (by decide) (by decide) (by decide) (by decide)
    (by decide) (by decide) (by decide)

/-- C6: a catalog file with a malformed data line (wrong field count or a
non-numeric value in a numeric column) makes the load fail with
`malformedRecord` naming a malformed line; no partial list is returned. -/
theorem malformed_line_fails_load (fs : String → Option (List String))
    (fname : String) (lines : List String) (l : String)
    (hfs : fs fname = some lines) (hmem : l ∈ catalogDataLines lines)
    (hbad : parseRow l = none) :
    ∃ lb, lb ∈ catalogDataLines lines ∧ parseRow lb = none ∧
      get_GC_params fs fname = Except.error (CatalogError.malformedRecord lb) := by
  obtain ⟨lb, h1, h2, h3⟩ := loadRows_error_of_mem (catalogDataLines lines) l hmem hbad
  refine ⟨lb, h1, h2, ?_⟩
  unfold get_GC_params
  rw [hfs]
  show loadUnpacked lines = Except.error (CatalogError.malformedRecord lb)
  unfold loadUnpacked
  rw [h3]

/-- C6 witness: the malformed catalog's second data line has 3 of 13 columns,
and loading the file fails with `malformedRecord` on a malformed line. -/
theorem malformed_line_fails_load_witness :
    ∃ lb, lb ∈ catalogDataLines exBadLines ∧ parseRow lb = none ∧
      get_GC_params exBadFS "bad.txt" =
        Except.error (CatalogError.malformedRecord lb) :=
  malformed_line_fails_load exBadFS "bad.txt" exBadLines "NGC288 13.19 -26.59"
    rfl (by decide) (by decide)

/-- C7: a missing or unreadable file makes the catalog load fail with
`catalogUnavailable` and the parameter-store load fail with
`storeUnavailable`; neither returns a default result. -/
theorem missing_file_fails_load (fs : String → Option (List String))
    (gs : String → Option (List RawGC)) (fname fname2 q : String)
    (h1 : fs fname = none) (h2 : gs fname2 = none) :
    get_GC_params fs fname = Except.error CatalogError.catalogUnavailable ∧
    isInJSONParametersFile gs fname2 q = Except.error StoreError.storeUnavailable := by
  constructor
  · unfold get_GC_params
    rw [h1]
  · unfold isInJSONParametersFile
    rw [h2]

/-- C7 witness: on an empty file system both loads fail with their
unavailability errors. -/
theorem missing_file_fails_load_witness :
    get_GC_params noneFS "catalog.txt" =
      Except.error CatalogError.catalogUnavailable ∧
    isInJSONParametersFile noneStoreFS "params.json" "NGC104" =
      Except.error StoreError.storeUnavailable :=
  missing_file_fails_load noneFS noneStoreFS "catalog.txt" "params.json"
    "NGC104" rfl rfl

/-- C8: a catalog file with no data rows (only comments and blank lines) loads
to the empty list, and every lookup on the empty list misses with the
zero-valued record. -/
theorem empty_catalog_loads_empty (fs : String → Option (List String))
    (fname : String) (lines : List String) (q : String)
    (hfs : fs fname = some lines) (hnd : catalogDataLines lines = []) :
    get_GC_params fs fname = Except.ok [] ∧
    get_selected_GC q [] = (emptyVasilievData, false) := by
  constructor
  · unfold get_GC_params
    rw [hfs]
    show loadUnpacked lines = Except.ok []
    unfold loadUnpacked
    rw [hnd]
    rfl
  · rfl

/-- C8 witness: the comment-only catalog loads to the empty list and a lookup
on it misses. -/
theorem empty_catalog_loads_empty_witness :
    get_GC_params exEmptyFS "empty.txt" = Except.ok [] ∧
    get_selected_GC "NGC104" [] = (emptyVasilievData, false) :=
  empty_catalog_loads_empty exEmptyFS "empty.txt" exEmptyLines "NGC104"
    rfl (by decide)

/-- C9: the Parameters_JSON.py variant of isInJSONParametersFile evaluates the
undefined name `object_name` as soon as the deserialized document is
non-empty, so on the example document it raises `NameError`, while the
Parameters.py variant applied to an object name returns a result — the two
implementations are not behaviourally equivalent. -/
theorem paramsjson_lookup_raises_nameerror :
    isInJSONParametersFileJSON none exStoreFS "params.json" =
      Except.error StoreError.nameError ∧
    isInJSONParametersFile exStoreFS "params.json" "ngc104" =
      Except.ok (coerced104, true) :=
  ⟨rfl, rfl⟩

/-- C10: on a hit, both lookups return the stored name verbatim: the catalog
lookup returns a member of the loaded list unchanged, and the store lookup
copies the matched item's name, in both cases matching the query only up to
letter case. -/
theorem hit_returns_stored_name (q : String) (data : List VasilievData)
    (r : VasilievData) (q2 : String) (doc : List RawGC) (p : ParametersGC)
    (h1 : get_selected_GC q data = (r, true))
    (h2 : scanParameters q2 doc = Except.ok (p, true)) :
    (r ∈ data ∧ pyUpper r.name = pyUpper q) ∧
    ∃ item, item ∈ doc ∧ p.name = item.name ∧ pyUpper item.name = pyUpper q2 :=
  ⟨get_selected_GC_found q data r h1, scanParameters_found q2 doc p h2⟩

/-- C10 witness: querying "ngc104" returns the record named "NGC104" from the
catalog, and querying "Ngc5139" returns the store record named "NGC5139". -/
theorem hit_returns_stored_name_witness :
    (row104 ∈ exData ∧ pyUpper row104.name = pyUpper "ngc104") ∧
    ∃ item, item ∈ exRawDoc ∧ coerced5139.name = item.name ∧
      pyUpper item.name = pyUpper "Ngc5139" :=
  hit_returns_stored_name "ngc104" exData row104 "Ngc5139" exRawDoc coerced5139
    (by decide) rfl

end Astrogaia
